import Mathlib

/-! Verification of the Money-mate-bot expense-tracking bot.

This file gives a shallow embedding in Lean 4 of the bot's pure logic:
the master-sheet user registry (get_user_sheet_id, add_user_to_master_sheet
in google_sheets_api.py), the monthly transaction store
(_get_or_create_monthly_sheet, append_expense_to_sheet,
get_all_expenses_for_analysis), the Gemini response validation
(analyze_expense_message in gemini_api.py), the chart renderer decision
logic (generate_chart_from_json in utils.py) and the message dispatcher
(handle_message in bot_handlers.py), together with theorems about their
behaviour.  External collaborators (the Google Sheets transport, the
Telegram transport, the Gemini inference call and the matplotlib
rasteriser) are modelled by explicit parameters; everything the repository
itself computes is embedded directly from the source. -/

/-! ## Master-sheet registry (google_sheets_api.py)

The registry is the first visible sheet of the master spreadsheet, read as
a table of rows of cells; each row is a list of strings and may be shorter
than two columns. -/

/-- Embeds get_user_sheet_id: scans the table and returns the second column
of the first row that has at least two columns and whose first column
equals user_id (the source guard is: len(row) >= 2 and row[0] == user_id),
or none when no such row exists. -/
def get_user_sheet_id : List (List String) → String → Option String
  | [], _ => none
  | row :: rest, user_id =>
    if 2 ≤ row.length ∧ row.head? = some user_id then row[1]?
    else get_user_sheet_id rest user_id

/-- Embeds the success path of add_user_to_master_sheet: the scan finds the
first row whose first column equals user_id (source guard: len(row) >= 1
and row[0] == user_id).  If that row's second column already equals
sheet_id the table is returned unchanged; otherwise cells A and B of that
row are overwritten with user_id and sheet_id by a ranged update (cells
beyond column B are untouched).  When no row matches, the row [user_id,
sheet_id] is appended after the end of the table.  The boolean is the
function's Python return value, True on every success branch. -/
def add_user_to_master_sheet :
    List (List String) → String → String → List (List String) × Bool
  | [], user_id, sheet_id => ([[user_id, sheet_id]], true)
  | row :: rest, user_id, sheet_id =>
    if row.head? = some user_id then
      if row[1]? = some sheet_id then (row :: rest, true)
      else ((user_id :: sheet_id :: row.drop 2) :: rest, true)
    else
      (row :: (add_user_to_master_sheet rest user_id sheet_id).1, true)

/-- Backend failure modes of a Google Sheets call: a well-formed HTTP error
response carrying a status code (403 is permission denied, 404 not found),
or any other exception such as a transport failure. -/
inductive BackendError where
  | httpError (status : Nat)
  | otherError
deriving DecidableEq

/-- Embeds add_user_to_master_sheet together with its exception handlers:
when the backend raises (err = some e) the source catches HttpError as well
as every other exception and returns False with the table unwritten;
otherwise it performs the upsert and returns True. -/
def add_user_to_master_sheet_run (err : Option BackendError)
    (t : List (List String)) (user_id sheet_id : String) :
    List (List String) × Bool :=
  match err with
  | some _ => (t, false)
  | none => add_user_to_master_sheet t user_id sheet_id

/-! ### Registry lemmas -/

theorem add_user_no_match (t : List (List String)) (u s : String)
    (h : ∀ r ∈ t, r.head? ≠ some u) :
    add_user_to_master_sheet t u s = (t ++ [[u, s]], true) := by
  induction t with
  | nil => rfl
  | cons r rs ih =>
    have hr : ¬ r.head? = some u := h r (List.mem_cons_self r rs)
    have hrs : ∀ x ∈ rs, x.head? ≠ some u :=
      fun x hx => h x (List.mem_cons_of_mem r hx)
    simp [add_user_to_master_sheet, hr, ih hrs]

theorem add_user_first_match (t1 : List (List String)) (r : List String)
    (t2 : List (List String)) (u s : String)
    (h1 : ∀ x ∈ t1, x.head? ≠ some u) (hr : r.head? = some u) :
    add_user_to_master_sheet (t1 ++ r :: t2) u s =
      (if r[1]? = some s then t1 ++ r :: t2
       else t1 ++ (u :: s :: r.drop 2) :: t2, true) := by
  induction t1 with
  | nil =>
    by_cases hs : r[1]? = some s <;> simp [add_user_to_master_sheet, hr, hs]
  | cons a t1 ih =>
    have ha : ¬ a.head? = some u := h1 a (List.mem_cons_self a t1)
    have h1' : ∀ x ∈ t1, x.head? ≠ some u :=
      fun x hx => h1 x (List.mem_cons_of_mem a hx)
    by_cases hs : r[1]? = some s <;>
      simp [add_user_to_master_sheet, ha, ih h1', hs]

theorem add_user_idem (t : List (List String)) (u s : String) :
    add_user_to_master_sheet (add_user_to_master_sheet t u s).1 u s =
      ((add_user_to_master_sheet t u s).1, true) := by
  induction t with
  | nil => simp [add_user_to_master_sheet]
  | cons r rs ih =>
    by_cases hr : r.head? = some u
    · by_cases hs : r[1]? = some s <;> simp [add_user_to_master_sheet, hr, hs]
    · simp [add_user_to_master_sheet, hr, ih]

theorem add_user_twice_count (t : List (List String)) (u s : String)
    (h : ∀ r ∈ t, r.head? ≠ some u) :
    ((add_user_to_master_sheet (add_user_to_master_sheet t u s).1 u s).1.countP
      (fun r => r.head? == some u)) = 1 := by
  rw [add_user_idem]
  simp only [add_user_no_match t u s h]
  rw [List.countP_append]
  have ht : t.countP (fun r => r.head? == some u) = 0 := by
    rw [List.countP_eq_zero]
    intro r hr
    simp [h r hr]
  simp [ht, List.countP_cons]

/-- C1: for every registry table and every (user_id, sheet_id), upsert
appends [user_id, sheet_id] when no row's first column equals user_id; when
the first such row already carries the same sheet_id it writes nothing and
reports success; when it carries a different (or no) sheet_id exactly that
row is overwritten in place; and a second upsert with the same pair is a
no-op, so a user absent from the table ends up with exactly one row after
two identical upserts. -/
theorem add_user_upsert_cases (t : List (List String)) (u s : String) :
    ((∀ r ∈ t, r.head? ≠ some u) →
        add_user_to_master_sheet t u s = (t ++ [[u, s]], true)) ∧
    (∀ t1 r t2, t = t1 ++ r :: t2 → (∀ x ∈ t1, x.head? ≠ some u) →
        r.head? = some u →
        (r[1]? = some s → add_user_to_master_sheet t u s = (t, true)) ∧
        (r[1]? ≠ some s →
          add_user_to_master_sheet t u s =
            (t1 ++ (u :: s :: r.drop 2) :: t2, true))) ∧
    (add_user_to_master_sheet (add_user_to_master_sheet t u s).1 u s =
        ((add_user_to_master_sheet t u s).1, true)) ∧
    ((∀ r ∈ t, r.head? ≠ some u) →
        ((add_user_to_master_sheet (add_user_to_master_sheet t u s).1 u s).1.countP
          (fun r => r.head? == some u)) = 1) := by
  refine ⟨add_user_no_match t u s, ?_, add_user_idem t u s,
    add_user_twice_count t u s⟩
  intro t1 r t2 ht h1 hr
  subst ht
  constructor
  · intro hs
    rw [add_user_first_match t1 r t2 u s h1 hr, if_pos hs]
  · intro hs
    rw [add_user_first_match t1 r t2 u s h1 hr, if_neg hs]

/-- Witness for C1: updating the registered sheet of user 7 from a to b
overwrites the single row in place and reports success. -/
theorem add_user_upsert_cases_witness :
    add_user_to_master_sheet [["7", "a"]] "7" "b" = ([["7", "b"]], true) := by
  exact ((add_user_upsert_cases [["7", "a"]] "7" "b").2.1 [] ["7", "a"] []
    rfl (by intro x hx; cases hx) rfl).2 (by decide)

/-- C2: a successful upsert followed immediately by a lookup for the same
user_id returns exactly the just-written sheet_id, on every starting
table. -/
theorem get_after_add_user (t : List (List String)) (u s : String) :
    get_user_sheet_id (add_user_to_master_sheet t u s).1 u = some s := by
  induction t with
  | nil => simp [add_user_to_master_sheet, get_user_sheet_id]
  | cons r rs ih =>
    by_cases hr : r.head? = some u
    · by_cases hs : r[1]? = some s
      · have hlen : 2 ≤ r.length := by
          cases r with
          | nil => simp at hs
          | cons a r' =>
            cases r' with
            | nil => simp at hs
            | cons b r'' => simp
        simp [add_user_to_master_sheet, hr, hs, get_user_sheet_id, hlen]
      · simp [add_user_to_master_sheet, hr, hs, get_user_sheet_id]
    · have hskip : ¬ (2 ≤ r.length ∧ r.head? = some u) := by
        intro hcon
        exact hr hcon.2
      simp [add_user_to_master_sheet, hr, get_user_sheet_id, hskip, ih]

theorem lookup_skip_one_col (t1 t2 : List (List String)) (u : String) :
    get_user_sheet_id (t1 ++ [u] :: t2) u = get_user_sheet_id (t1 ++ t2) u := by
  induction t1 with
  | nil => simp [get_user_sheet_id]
  | cons a t1 ih => simp [get_user_sheet_id, ih]

/-- C10: a one-column row [u] is invisible to lookup (the scan behaves as if
the row were absent), yet upsert treats it as an existing registration:
when it is the first row whose first column equals u, upsert overwrites it
in place to [u, s] instead of appending a new row. -/
theorem lookup_vs_upsert_short_row (t1 t2 : List (List String)) (u s : String) :
    get_user_sheet_id (t1 ++ [u] :: t2) u = get_user_sheet_id (t1 ++ t2) u ∧
    ((∀ x ∈ t1, x.head? ≠ some u) →
      add_user_to_master_sheet (t1 ++ [u] :: t2) u s =
        (t1 ++ [u, s] :: t2, true)) := by
  refine ⟨lookup_skip_one_col t1 t2 u, fun h1 => ?_⟩
  have h := add_user_first_match t1 [u] t2 u s h1 (by simp)
  simpa using h

/-- Witness for C10: in a registry whose only row is the one-column row
["9"], lookup reports user 9 absent while upsert overwrites that row. -/
theorem lookup_vs_upsert_short_row_witness :
    get_user_sheet_id [["9"]] "9" = none ∧
    add_user_to_master_sheet [["9"]] "9" "S" = ([["9", "S"]], true) := by
  have h := lookup_vs_upsert_short_row [] [] "9" "S"
  refine ⟨?_, h.2 (by intro x hx; cases hx)⟩
  rw [show ([["9"]] : List (List String)) = [] ++ ["9"] :: [] from rfl, h.1]
  rfl

/-- Counterexample to C8: a permission-denied rejection (HTTP 403) and a
generic backend failure produce the very same result ([], false) from the
registry upsert, so the caller cannot tell them apart from upsert's
result. -/
theorem add_user_error_counterexample :
    add_user_to_master_sheet_run (some (BackendError.httpError 403)) [] "1" "S"
        = ([], false) ∧
    add_user_to_master_sheet_run (some BackendError.otherError) [] "1" "S"
        = ([], false) :=
  ⟨rfl, rfl⟩

/-- C8 (amended): on any backend rejection the registry upsert reports
failure through its boolean return value instead of raising, but the result
is the same undifferentiated (table, false) for every backend error, so
permission-denied is not distinguished from any other failure. -/
theorem add_user_error_uniform (e : BackendError) (t : List (List String))
    (u s : String) :
    add_user_to_master_sheet_run (some e) t u s = (t, false) := rfl

/-! ## Python value model and float parsing

The Gemini response is parsed by json.loads into Python values; the sheet
scan applies Python float() to cell strings.  JSON values are modelled by
JVal (arrays and nested objects never reach the embedded validation
logic); numbers are modelled by Rat. -/

/-- A JSON-decoded Python value: null, a boolean, a number or a string. -/
inductive JVal where
  | jnull
  | jbool (b : Bool)
  | jnum (q : Rat)
  | jstr (s : String)
deriving DecidableEq

/-- Value of a list of decimal digit characters. -/
def digitsVal (cs : List Char) : Nat :=
  cs.foldl (fun a c => a * 10 + (c.toNat - 48)) 0

/-- Parses a decimal literal (digits with an optional single decimal
point), the fragment of Python float() syntax exercised by the program;
returns none exactly when Python float() would raise ValueError on such
input (empty string, stray letters, a second decimal point, a lone
point). -/
def parseDecimal (cs : List Char) : Option Rat :=
  match cs.dropWhile (fun c => c ≠ '.') with
  | [] =>
    if cs ≠ [] ∧ cs.all Char.isDigit then some (digitsVal cs) else none
  | _ :: frac =>
    if (cs.takeWhile (fun c => c ≠ '.') ≠ [] ∨ frac ≠ []) ∧
        (cs.takeWhile (fun c => c ≠ '.')).all Char.isDigit ∧
        frac.all Char.isDigit then
      some ((digitsVal (cs.takeWhile (fun c => c ≠ '.')) : Rat) +
        (digitsVal frac : Rat) / ((10 : Rat) ^ frac.length))
    else none

/-- Models Python float(s) on a string, with an optional leading sign. -/
def parsePyFloat (s : String) : Option Rat :=
  match s.data with
  | '-' :: cs => (parseDecimal cs).map (fun q => -q)
  | '+' :: cs => parseDecimal cs
  | cs => parseDecimal cs

/-- Models Python float(v) on a JSON-decoded value: numbers convert to
themselves, booleans to 0 or 1, numeric strings are parsed, anything else
raises (None raises TypeError, non-numeric strings ValueError). -/
def pyFloat : JVal → Option Rat
  | JVal.jnum q => some q
  | JVal.jbool b => some (if b then 1 else 0)
  | JVal.jstr s => parsePyFloat s
  | JVal.jnull => none

/-- Python truthiness of a JSON-decoded value. -/
def truthy : JVal → Bool
  | JVal.jnull => false
  | JVal.jbool b => b
  | JVal.jnum q => q ≠ 0
  | JVal.jstr s => s ≠ ""

/-! ## Gemini response validation (gemini_api.py, analyze_expense_message)

The JSON object returned by the model is a dictionary, embedded as an
association list.  dictGet embeds Python dict.get (returning None, i.e.
jnull, for a missing key) and dictSet embeds key assignment. -/

/-- A JSON object decoded to a Python dict. -/
abbrev JDict := List (String × JVal)

/-- Embeds result_json.get(k): the value of the first entry for k, or None
(jnull) when the key is missing. -/
def dictGet : JDict → String → JVal
  | [], _ => JVal.jnull
  | (k0, v0) :: rest, k => if k0 = k then v0 else dictGet rest k

/-- Embeds result_json[k] = v: replaces the value of the first entry for k,
appending a new entry when the key is missing. -/
def dictSet : JDict → String → JVal → JDict
  | [], k, v => [(k, v)]
  | (k0, v0) :: rest, k, v =>
    if k0 = k then (k0, v) :: rest else (k0, v0) :: dictSet rest k v

/-- Embeds the membership test k in result_json. -/
def hasKey (d : JDict) (k : String) : Bool :=
  d.any (fun p => p.1 = k)

/-- The seven keys the source requires in the Gemini response. -/
def requiredKeys : List String :=
  ["request_type", "is_income", "is_expense", "amount", "category",
   "description", "analysis_query"]

/-- The fixed category list the source checks transaction categories
against (the source list additionally contains None, handled by
categoryAllowed). -/
def CATEGORIES : List String :=
  ["Ăn uống & Đồ uống", "Đi lại", "Nhà ở", "Mua sắm", "Giải trí",
   "Sức khỏe", "Giáo dục", "Hóa đơn & Tiện ích", "Cá nhân", "Cho vay",
   "Vay tiền", "Khác"]

/-- Membership of the category value in the source's allowed list, which
contains the twelve category strings and None. -/
def categoryAllowed (v : JVal) : Bool :=
  CATEGORIES.any (fun c => v = JVal.jstr c) || v = JVal.jnull

/-- The default result the source returns when a required key is
missing. -/
def defaultOtherResult : JDict :=
  [("request_type", JVal.jstr "other"), ("is_income", JVal.jbool false),
   ("is_expense", JVal.jbool false), ("amount", JVal.jnull),
   ("category", JVal.jnull), ("description", JVal.jnull),
   ("analysis_query", JVal.jnull)]

/-- Embeds the category-coercion step of analyze_expense_message: when the
message is an expense or an income and the category is outside the allowed
list, the category is overwritten with the string for Other. -/
def coerceCategory (d : JDict) : JDict :=
  if (truthy (dictGet d "is_expense") || truthy (dictGet d "is_income"))
      && !categoryAllowed (dictGet d "category") then
    dictSet d "category" (JVal.jstr "Khác")
  else d

/-- Embeds the amount-normalisation step of analyze_expense_message: a
non-null amount is converted with float(), and on conversion failure the
amount is set to None (the request_type is left untouched); a null amount
makes the whole result degrade to request_type other. -/
def normalizeAmount (d : JDict) : JDict :=
  if dictGet d "amount" ≠ JVal.jnull then
    match pyFloat (dictGet d "amount") with
    | some q => dictSet d "amount" (JVal.jnum q)
    | none => dictSet d "amount" JVal.jnull
  else dictSet d "request_type" (JVal.jstr "other")

/-- Embeds the response validation of analyze_expense_message, the pure
part that runs after json.loads succeeds: missing keys degrade to the
default Other result; a transaction runs category coercion then amount
normalisation; an analysis without a truthy analysis_query degrades to
other; an unknown request_type degrades to other. -/
def analyze_expense_message_validation (d : JDict) : JDict :=
  if !(requiredKeys.all fun k => hasKey d k) then defaultOtherResult
  else if dictGet d "request_type" = JVal.jstr "transaction" then
    normalizeAmount (coerceCategory d)
  else if dictGet d "request_type" = JVal.jstr "analysis" then
    if !truthy (dictGet d "analysis_query") then
      dictSet d "request_type" (JVal.jstr "other")
    else d
  else if dictGet d "request_type" = JVal.jstr "other" then d
  else dictSet d "request_type" (JVal.jstr "other")

/-! ### Dictionary lemmas -/

theorem dictGet_dictSet_same (d : JDict) (k : String) (v : JVal) :
    dictGet (dictSet d k v) k = v := by
  induction d with
  | nil => simp [dictGet, dictSet]
  | cons p rest ih =>
    obtain ⟨k0, v0⟩ := p
    by_cases h : k0 = k <;> simp [dictGet, dictSet, h, ih]

theorem dictGet_dictSet_ne (d : JDict) (k k2 : String) (v : JVal)
    (h : k2 ≠ k) : dictGet (dictSet d k v) k2 = dictGet d k2 := by
  induction d with
  | nil => simp [dictGet, dictSet, Ne.symm h]
  | cons p rest ih =>
    obtain ⟨k0, v0⟩ := p
    by_cases h0 : k0 = k
    · subst h0
      simp [dictGet, dictSet, Ne.symm h]
    · simp [dictGet, dictSet, h0, ih]

theorem coerceCategory_get_other (d : JDict) (k : String)
    (h : k ≠ "category") : dictGet (coerceCategory d) k = dictGet d k := by
  unfold coerceCategory
  split
  · exact dictGet_dictSet_ne d "category" k _ h
  · rfl

theorem coerceCategory_get_coerced (d : JDict)
    (hflag : (truthy (dictGet d "is_expense") ||
      truthy (dictGet d "is_income")) = true)
    (hcat : categoryAllowed (dictGet d "category") = false) :
    dictGet (coerceCategory d) "category" = JVal.jstr "Khác" := by
  unfold coerceCategory
  rw [hflag, hcat]
  simp [dictGet_dictSet_same]

theorem coerceCategory_get_unchanged (d : JDict)
    (hflag : (truthy (dictGet d "is_expense") ||
      truthy (dictGet d "is_income")) = false) :
    dictGet (coerceCategory d) "category" = dictGet d "category" := by
  unfold coerceCategory
  rw [hflag]
  rfl

theorem analyze_eq_transaction (d : JDict)
    (hk : (requiredKeys.all fun k => hasKey d k) = true)
    (ht : dictGet d "request_type" = JVal.jstr "transaction") :
    analyze_expense_message_validation d =
      normalizeAmount (coerceCategory d) := by
  unfold analyze_expense_message_validation
  rw [hk, ht]
  simp

/-- Counterexample to C3: a complete transaction response whose amount is
the non-numeric string abc keeps request_type transaction (the amount is
merely nulled), instead of degrading to other as the claim states. -/
theorem analyze_abc_counterexample :
    dictGet (analyze_expense_message_validation
      [("request_type", JVal.jstr "transaction"),
       ("is_income", JVal.jbool false), ("is_expense", JVal.jbool true),
       ("amount", JVal.jstr "abc"),
       ("category", JVal.jstr "Ăn uống & Đồ uống"),
       ("description", JVal.jnull), ("analysis_query", JVal.jnull)])
      "request_type" = JVal.jstr "transaction" ∧
    dictGet (analyze_expense_message_validation
      [("request_type", JVal.jstr "transaction"),
       ("is_income", JVal.jbool false), ("is_expense", JVal.jbool true),
       ("amount", JVal.jstr "abc"),
       ("category", JVal.jstr "Ăn uống & Đồ uống"),
       ("description", JVal.jnull), ("analysis_query", JVal.jnull)])
      "amount" = JVal.jnull := by
  constructor <;> rfl

/-- C3 (amended): for a complete response with request_type transaction,
category is coerced to Khác exactly when is_income or is_expense is truthy
and the category is outside the allowed list (it is left unchanged when
neither flag is truthy); a null amount degrades the result to request_type
other; a non-null amount that parses is stored as a number with the result
remaining a transaction; and a non-null amount that fails to parse (such
as the string abc) is set to null while request_type remains
transaction. -/
theorem analyze_transaction_validation (d : JDict)
    (hk : (requiredKeys.all fun k => hasKey d k) = true)
    (ht : dictGet d "request_type" = JVal.jstr "transaction") :
    (((truthy (dictGet d "is_expense") ||
        truthy (dictGet d "is_income")) = true →
      categoryAllowed (dictGet d "category") = false →
      dictGet (analyze_expense_message_validation d) "category" =
        JVal.jstr "Khác") ∧
     ((truthy (dictGet d "is_expense") ||
        truthy (dictGet d "is_income")) = false →
      dictGet (analyze_expense_message_validation d) "category" =
        dictGet d "category")) ∧
    (dictGet d "amount" = JVal.jnull →
      dictGet (analyze_expense_message_validation d) "request_type" =
        JVal.jstr "other") ∧
    (∀ q : Rat, dictGet d "amount" ≠ JVal.jnull →
      pyFloat (dictGet d "amount") = some q →
      dictGet (analyze_expense_message_validation d) "amount" =
          JVal.jnum q ∧
      dictGet (analyze_expense_message_validation d) "request_type" =
          JVal.jstr "transaction") ∧
    (dictGet d "amount" ≠ JVal.jnull →
      pyFloat (dictGet d "amount") = none →
      dictGet (analyze_expense_message_validation d) "amount" =
          JVal.jnull ∧
      dictGet (analyze_expense_message_validation d) "request_type" =
          JVal.jstr "transaction") := by
  rw [analyze_eq_transaction d hk ht]
  have hamt : dictGet (coerceCategory d) "amount" = dictGet d "amount" :=
    coerceCategory_get_other d "amount" (by decide)
  have hrt : dictGet (coerceCategory d) "request_type" =
      dictGet d "request_type" :=
    coerceCategory_get_other d "request_type" (by decide)
  refine ⟨⟨?_, ?_⟩, ?_, ?_, ?_⟩
  · intro hflag hcat
    unfold normalizeAmount
    split
    · split
      · rw [dictGet_dictSet_ne _ _ _ _ (by decide)]
        exact coerceCategory_get_coerced d hflag hcat
      · rw [dictGet_dictSet_ne _ _ _ _ (by decide)]
        exact coerceCategory_get_coerced d hflag hcat
    · rw [dictGet_dictSet_ne _ _ _ _ (by decide)]
      exact coerceCategory_get_coerced d hflag hcat
  · intro hflag
    unfold normalizeAmount
    split
    · split
      · rw [dictGet_dictSet_ne _ _ _ _ (by decide)]
        exact coerceCategory_get_unchanged d hflag
      · rw [dictGet_dictSet_ne _ _ _ _ (by decide)]
        exact coerceCategory_get_unchanged d hflag
    · rw [dictGet_dictSet_ne _ _ _ _ (by decide)]
      exact coerceCategory_get_unchanged d hflag
  · intro hnull
    unfold normalizeAmount
    rw [hamt, hnull]
    simp [dictGet_dictSet_same]
  · intro q hnn hq
    unfold normalizeAmount
    rw [hamt, hq]
    simp only [ne_eq, hnn, not_false_iff, if_true]
    exact ⟨dictGet_dictSet_same _ _ _, by
      rw [dictGet_dictSet_ne _ _ _ _ (by decide), hrt, ht]⟩
  · intro hnn hp
    unfold normalizeAmount
    rw [hamt, hp]
    simp only [ne_eq, hnn, not_false_iff, if_true]
    exact ⟨dictGet_dictSet_same _ _ _, by
      rw [dictGet_dictSet_ne _ _ _ _ (by decide), hrt, ht]⟩

/-- Witness for C3 (amended): a complete transaction response with the
numeric string amount 50000 keeps request_type transaction and stores
amount 50000. -/
theorem analyze_transaction_validation_witness :
    dictGet (analyze_expense_message_validation
      [("request_type", JVal.jstr "transaction"),
       ("is_income", JVal.jbool false), ("is_expense", JVal.jbool true),
       ("amount", JVal.jstr "50000"),
       ("category", JVal.jstr "Ăn uống & Đồ uống"),
       ("description", JVal.jnull), ("analysis_query", JVal.jnull)])
      "amount" = JVal.jnum 50000 ∧
    dictGet (analyze_expense_message_validation
      [("request_type", JVal.jstr "transaction"),
       ("is_income", JVal.jbool false), ("is_expense", JVal.jbool true),
       ("amount", JVal.jstr "50000"),
       ("category", JVal.jstr "Ăn uống & Đồ uống"),
       ("description", JVal.jnull), ("analysis_query", JVal.jnull)])
      "request_type" = JVal.jstr "transaction" :=
  (analyze_transaction_validation
    [("request_type", JVal.jstr "transaction"),
     ("is_income", JVal.jbool false), ("is_expense", JVal.jbool true),
     ("amount", JVal.jstr "50000"),
     ("category", JVal.jstr "Ăn uống & Đồ uống"),
     ("description", JVal.jnull), ("analysis_query", JVal.jnull)]
    (by decide) (by decide)).2.2.1 50000 (by decide) (by decide)

/-! ## Monthly transaction store (google_sheets_api.py)

A user spreadsheet is a list of sheets (segments); each sheet has a title
and rows.  A row is either a row of string cells written by a ranged
update (the header) or an appended transaction record whose second cell is
the float amount. -/

/-- The fixed header the source writes into a fresh monthly sheet. -/
def HEADER_ROW : List String :=
  ["Date", "Amount", "Category", "Description", "Type"]

/-- One row of a user sheet. -/
inductive SheetRow where
  | cells (vals : List String)
  | record (date : String) (amount : Rat) (category : String)
      (description : String) (ttype : String)
deriving DecidableEq

/-- One sheet (monthly segment) of a user spreadsheet. -/
structure SheetSegment where
  title : String
  rows : List SheetRow
deriving DecidableEq

/-- Embeds the success path of _get_or_create_monthly_sheet: when some
sheet of the spreadsheet already has exactly the requested title nothing
is created or written; otherwise one new sheet with that title is added
(at the end) and the five-column header row is written into it once. -/
def get_or_create_monthly_sheet (ss : List SheetSegment)
    (sheet_name : String) : List SheetSegment :=
  if ss.any (fun seg => seg.title = sheet_name) then ss
  else ss ++ [⟨sheet_name, [SheetRow.cells HEADER_ROW]⟩]

/-- Embeds a values().append call on range sheet_name!A1: the row is
appended after the existing table of the first sheet carrying that title
(append-at-end, never overwrite). -/
def appendRowToSheet : List SheetSegment → String → SheetRow →
    List SheetSegment
  | [], _, _ => []
  | seg :: rest, sheet_name, row =>
    if seg.title = sheet_name then
      ⟨seg.title, seg.rows ++ [row]⟩ :: rest
    else seg :: appendRowToSheet rest sheet_name row

/-- Embeds the success path of append_expense_to_sheet: the monthly sheet
named sheet_name (the source derives it as now.strftime of YYYY-MM, here a
parameter because wall-clock time is an external input, like the formatted
timestamp date_str) is created with its header when absent, then one row
[date_str, float(amount), category, description, transaction_type] is
appended to it. -/
def append_expense_to_sheet (ss : List SheetSegment)
    (sheet_name date_str : String) (amount : Rat)
    (category description transaction_type : String) : List SheetSegment :=
  appendRowToSheet (get_or_create_monthly_sheet ss sheet_name) sheet_name
    (SheetRow.record date_str amount category description transaction_type)

/-! ### Store lemmas -/

theorem appendRowToSheet_titles (ss : List SheetSegment) (n : String)
    (r : SheetRow) :
    (appendRowToSheet ss n r).map SheetSegment.title =
      ss.map SheetSegment.title := by
  induction ss with
  | nil => rfl
  | cons seg rest ih =>
    by_cases h : seg.title = n <;> simp [appendRowToSheet, h, ih]

theorem get_or_create_mem_title (ss : List SheetSegment) (n : String) :
    ((get_or_create_monthly_sheet ss n).any
      (fun seg => seg.title = n)) = true := by
  unfold get_or_create_monthly_sheet
  split
  · assumption
  · simp

theorem any_title_of_map_eq (ss1 ss2 : List SheetSegment) (n : String)
    (h : ss1.map SheetSegment.title = ss2.map SheetSegment.title) :
    (ss1.any fun seg => seg.title = n) = (ss2.any fun seg => seg.title = n) := by
  have h1 : ∀ ss : List SheetSegment,
      (ss.any fun seg => seg.title = n) =
        ((ss.map SheetSegment.title).any fun t => t = n) := by
    intro ss
    induction ss with
    | nil => rfl
    | cons seg rest ih => simp [ih]
  rw [h1, h1, h]

theorem appendRowToSheet_fresh (ss : List SheetSegment)
    (seg : SheetSegment) (r : SheetRow)
    (h : (ss.any fun x => x.title = seg.title) = false) :
    appendRowToSheet (ss ++ [seg]) seg.title r =
      ss ++ [⟨seg.title, seg.rows ++ [r]⟩] := by
  induction ss with
  | nil => simp [appendRowToSheet]
  | cons a rest ih =>
    simp only [List.any_cons, Bool.or_eq_false_iff, decide_eq_false_iff_not]
      at h
    simp [appendRowToSheet, h.1, ih h.2]

/-- C6: creating the monthly segment is idempotent: when a sheet with the
exact name exists nothing is created or written, and otherwise exactly one
sheet is created with the five-column header written exactly once; two
appends with the same month name never create a second segment (the
resulting segment titles are unchanged by the second append); and appends
for two different fresh months produce exactly two new segments, each
holding its header row once followed by its own record. -/
theorem monthly_sheet_idempotent (ss : List SheetSegment)
    (m m2 d1 d2 : String) (a1 a2 : Rat) (c1 c2 e1 e2 y1 y2 : String) :
    ((ss.any fun seg => seg.title = m) = true →
      get_or_create_monthly_sheet ss m = ss) ∧
    ((ss.any fun seg => seg.title = m) = false →
      get_or_create_monthly_sheet ss m =
        ss ++ [⟨m, [SheetRow.cells HEADER_ROW]⟩]) ∧
    ((append_expense_to_sheet (append_expense_to_sheet ss m d1 a1 c1 e1 y1)
        m d2 a2 c2 e2 y2).map SheetSegment.title =
      (append_expense_to_sheet ss m d1 a1 c1 e1 y1).map SheetSegment.title) ∧
    ((ss.any fun seg => seg.title = m) = false →
      (ss.any fun seg => seg.title = m2) = false → m ≠ m2 →
      append_expense_to_sheet (append_expense_to_sheet ss m d1 a1 c1 e1 y1)
          m2 d2 a2 c2 e2 y2 =
        ss ++ [⟨m, [SheetRow.cells HEADER_ROW,
                    SheetRow.record d1 a1 c1 e1 y1]⟩,
               ⟨m2, [SheetRow.cells HEADER_ROW,
                     SheetRow.record d2 a2 c2 e2 y2]⟩]) := by
  refine ⟨fun h => by simp [get_or_create_monthly_sheet, h], fun h => by
    simp [get_or_create_monthly_sheet, h], ?_, ?_⟩
  · have hmem : ((append_expense_to_sheet ss m d1 a1 c1 e1 y1).any
        fun seg => seg.title = m) = true := by
      unfold append_expense_to_sheet
      rw [any_title_of_map_eq _ _ m (appendRowToSheet_titles _ _ _)]
      exact get_or_create_mem_title ss m
    have hgc : get_or_create_monthly_sheet
        (append_expense_to_sheet ss m d1 a1 c1 e1 y1) m =
        append_expense_to_sheet ss m d1 a1 c1 e1 y1 := by
      simp [get_or_create_monthly_sheet, hmem]
    conv_lhs => rw [append_expense_to_sheet, hgc]
    exact appendRowToSheet_titles _ _ _
  · intro h1 h2 hne
    have step1 : append_expense_to_sheet ss m d1 a1 c1 e1 y1 =
        ss ++ [⟨m, [SheetRow.cells HEADER_ROW,
                    SheetRow.record d1 a1 c1 e1 y1]⟩] := by
      unfold append_expense_to_sheet get_or_create_monthly_sheet
      rw [h1]
      simp only [if_false, Bool.false_eq_true]
      exact appendRowToSheet_fresh ss ⟨m, [SheetRow.cells HEADER_ROW]⟩ _ h1
    rw [step1]
    have hany2 : ((ss ++ [⟨m, [SheetRow.cells HEADER_ROW,
        SheetRow.record d1 a1 c1 e1 y1]⟩] : List SheetSegment).any
        fun seg => seg.title = m2) = false := by
      simp [List.any_append, h2, hne]
    unfold append_expense_to_sheet get_or_create_monthly_sheet
    rw [hany2]
    simp only [if_false, Bool.false_eq_true]
    have := appendRowToSheet_fresh
      (ss ++ [⟨m, [SheetRow.cells HEADER_ROW,
        SheetRow.record d1 a1 c1 e1 y1]⟩])
      ⟨m2, [SheetRow.cells HEADER_ROW]⟩ (SheetRow.record d2 a2 c2 e2 y2)
      hany2
    simpa using this

/-- Witness for C6: in an empty spreadsheet, one January append and one
February append create exactly the two monthly segments, each with its
header exactly once. -/
theorem monthly_sheet_idempotent_witness :
    append_expense_to_sheet
        (append_expense_to_sheet [] "2025-01" "2025-01-05 10:00:00" 50000
          "Ăn uống & Đồ uống" "pho" "Chi")
        "2025-02" "2025-02-01 09:00:00" 20000 "Đi lại" "bus" "Chi" =
      [⟨"2025-01", [SheetRow.cells HEADER_ROW,
        SheetRow.record "2025-01-05 10:00:00" 50000 "Ăn uống & Đồ uống"
          "pho" "Chi"]⟩,
       ⟨"2025-02", [SheetRow.cells HEADER_ROW,
        SheetRow.record "2025-02-01 09:00:00" 20000 "Đi lại"
          "bus" "Chi"]⟩] := by
  exact (monthly_sheet_idempotent [] "2025-01" "2025-02"
    "2025-01-05 10:00:00" "2025-02-01 09:00:00" 50000 20000
    "Ăn uống & Đồ uống" "Đi lại" "pho" "bus" "Chi" "Chi").2.2.2
    rfl rfl (by decide)

/-! ## Full-history scan (google_sheets_api.py, get_all_expenses_for_analysis)

Each monthly sheet is read over range A2:E, giving data rows of at most
five string cells; a cell is an Option String after the source pads short
rows with None. -/

/-- Embeds row.extend([None] * (len(HEADER_ROW) - len(row))): the data row
is right-padded with None up to the five header columns (rows already five
wide are unchanged; the range A2:E never yields more than five cells). -/
def padRow (row : List String) : List (Option String) :=
  row.map some ++ List.replicate (5 - row.length) none

/-- Embeds str.replace(",", ".") for the single-character arguments the
source uses: every comma character becomes a dot. -/
def replaceCommaDot (s : String) : String :=
  String.mk (s.data.map (fun c => if c = ',' then '.' else c))

/-- Embeds the amount cleaning of get_all_expenses_for_analysis: a truthy
cell is converted with float(str(cell).replace(",", ".")), yielding None on
ValueError (with a logged warning, the row being kept); a falsy cell (None
or the empty string) defaults the amount to 0.0. -/
def convert_amount : Option String → Option Rat
  | some s => if s ≠ "" then parsePyFloat (replaceCommaDot s) else some 0
  | none => some 0

/-- One record produced by the scan, keyed in the source by the header
names Date, Amount, Category, Description, Type. -/
structure ExpenseRecord where
  date : Option String
  amount : Option Rat
  category : Option String
  description : Option String
  ttype : Option String
deriving DecidableEq

/-- Embeds the per-row mapping of get_all_expenses_for_analysis: the row is
padded to five cells and mapped to a record, with the amount cell
cleaned. -/
def expense_record_of_row (row : List String) : ExpenseRecord :=
  { date := (padRow row).getD 0 none
    amount := convert_amount ((padRow row).getD 1 none)
    category := (padRow row).getD 2 none
    description := (padRow row).getD 3 none
    ttype := (padRow row).getD 4 none }

/-- Embeds the data-row loop of get_all_expenses_for_analysis over the rows
of one monthly sheet: every row is mapped to a record; no row aborts the
scan. -/
def get_all_expenses_for_analysis (rows : List (List String)) :
    List ExpenseRecord :=
  rows.map expense_record_of_row

/-- C7: every data row is right-padded to five columns before being mapped
(the padded row always has width five for rows of at most five cells); the
scan maps every row to a record and never drops or aborts on one; a
numeric amount string 50000 maps to the number 50000; and a row whose
amount cell is the non-numeric string abc yields a record whose amount is
None, whatever the other cells hold. -/
theorem scan_row_mapping :
    (∀ row : List String, row.length ≤ 5 → (padRow row).length = 5) ∧
    (∀ rows : List (List String),
      (get_all_expenses_for_analysis rows).length = rows.length) ∧
    (expense_record_of_row
        ["2025-01-05 10:00:00", "50000", "Ăn uống & Đồ uống", "", "Chi"] =
      { date := some "2025-01-05 10:00:00", amount := some 50000,
        category := some "Ăn uống & Đồ uống", description := some "",
        ttype := some "Chi" }) ∧
    (∀ d c e y : String,
      (expense_record_of_row [d, "abc", c, e, y]).amount = none) := by
  refine ⟨?_, ?_, by decide, ?_⟩
  · intro row h
    simp [padRow]
    omega
  · intro rows
    simp [get_all_expenses_for_analysis]
  · intro d c e y
    simp [expense_record_of_row, padRow, convert_amount]
    rfl

/-- Witness for C7: a two-column row is padded to the full five columns. -/
theorem scan_row_mapping_witness :
    (padRow ["2025-01-05", "50000"]).length = 5 :=
  scan_row_mapping.1 ["2025-01-05", "50000"] (by decide)

/-! ## Chart renderer decision logic (utils.py, generate_chart_from_json)

The JSON string handed to generate_chart_from_json decodes to an object
with an optional type, and an optional data object holding optional labels
and datasets.  The embedding keeps the renderer's decisions (validation,
type dispatch, series alignment, pie filtering); the matplotlib
rasterisation of the accepted data is the external collaborator, so an
accepted chart is represented by the type and the aligned series it would
draw instead of by PNG bytes. -/

/-- One dataset of the chart JSON. -/
structure ChartDataset where
  label : Option String
  data : List Rat
deriving DecidableEq

/-- The data object of the chart JSON. -/
structure ChartDataObj where
  labels : Option (List String)
  datasets : Option (List ChartDataset)
deriving DecidableEq

/-- The decoded chart JSON object. -/
structure ChartJson where
  ctype : Option String
  cdata : Option ChartDataObj
deriving DecidableEq

/-- The content the renderer draws when it accepts a chart: the resolved
chart type and, per plotted dataset, the data aligned to the label count
(for pie, the single filtered first dataset). -/
structure ChartImage where
  itype : String
  series : List (List Rat)
deriving DecidableEq

/-- Embeds (dataset_data + [0] * len(labels))[:len(labels)]: the series is
zero-padded then truncated to the label count (the source only runs this
on a length mismatch, but on equal lengths it is the identity, so the
unconditional form is the same function). -/
def alignSeries (d : List Rat) (n : Nat) : List Rat :=
  (d ++ List.replicate n 0).take n

/-- Embeds str.lower(): every character is lower-cased. -/
def pyLower (s : String) : String :=
  String.mk (s.data.map Char.toLower)

/-- Embeds the decision logic of generate_chart_from_json: the type
defaults to bar and is lower-cased; the chart is rejected (None) when the
data object is falsy, the labels key is missing, the datasets key is
missing, or the datasets list is empty; bar and line draw every dataset
aligned to the label count; pie draws only the first dataset, dropping its
non-positive entries; every other type is rejected rather than drawn.  The
source check (not data or ... or not data[datasets]) never tests
data[labels] for emptiness, so an empty labels list is accepted. -/
def generate_chart_from_json (c : ChartJson) : Option ChartImage :=
  match c.cdata with
  | none => none
  | some data =>
    match data.labels, data.datasets with
    | none, _ => none
    | some _, none => none
    | some labels, some datasets =>
      if datasets.isEmpty then none
      else if pyLower (c.ctype.getD "bar") = "bar" then
        some ⟨"bar", datasets.map (fun ds => alignSeries ds.data labels.length)⟩
      else if pyLower (c.ctype.getD "bar") = "line" then
        some ⟨"line", datasets.map (fun ds => alignSeries ds.data labels.length)⟩
      else if pyLower (c.ctype.getD "bar") = "pie" then
        match datasets.head? with
        | some ds =>
          some ⟨"pie", [(alignSeries ds.data labels.length).filter
            (fun x => 0 < x)]⟩
        | none => none
      else none

/-- Counterexample to C9: a bar chart with an empty labels list and one
non-empty dataset is accepted and rendered (as an empty-axes image), not
rejected: the validation never checks labels for emptiness. -/
theorem chart_empty_labels_counterexample :
    generate_chart_from_json
        ⟨some "bar", some ⟨some [], some [⟨some "A", [1, 2]⟩]⟩⟩ =
      some ⟨"bar", [[]]⟩ := by
  decide

/-- C9 (amended): the renderer returns absent when the data object is
missing, when the labels key is missing, or when the datasets key is
missing or its list is empty; a spec with a present but empty labels list
and a non-empty datasets list is not rejected and yields an image (its
series truncated to the empty label count); and every spec whose
lower-cased type (defaulting to bar) is none of bar, line or pie yields
absent rather than a default chart. -/
theorem chart_render_validation :
    (∀ t : Option String, generate_chart_from_json ⟨t, none⟩ = none) ∧
    (∀ (t : Option String) (ds : Option (List ChartDataset)),
      generate_chart_from_json ⟨t, some ⟨none, ds⟩⟩ = none) ∧
    (∀ (t : Option String) (ls : List String),
      generate_chart_from_json ⟨t, some ⟨some ls, none⟩⟩ = none) ∧
    (∀ (t : Option String) (ls : List String),
      generate_chart_from_json ⟨t, some ⟨some ls, some []⟩⟩ = none) ∧
    (∀ (d : ChartDataset) (ds : List ChartDataset),
      generate_chart_from_json
          ⟨some "bar", some ⟨some [], some (d :: ds)⟩⟩ =
        some ⟨"bar", (d :: ds).map (fun _ => [])⟩) ∧
    (∀ c : ChartJson, pyLower (c.ctype.getD "bar") ≠ "bar" →
      pyLower (c.ctype.getD "bar") ≠ "line" →
      pyLower (c.ctype.getD "bar") ≠ "pie" →
      generate_chart_from_json c = none) := by
  refine ⟨fun t => rfl, fun t ds => rfl, fun t ls => rfl, fun t ls => rfl,
    ?_, ?_⟩
  · intro d ds
    have hb : pyLower "bar" = "bar" := by decide
    simp [generate_chart_from_json, alignSeries, hb]
  · intro c h1 h2 h3
    obtain ⟨t, data⟩ := c
    match data with
    | none => rfl
    | some ⟨none, ds⟩ => rfl
    | some ⟨some ls, none⟩ => rfl
    | some ⟨some ls, some dss⟩ =>
      simp only [generate_chart_from_json] at h1 h2 h3 ⊢
      rw [if_neg h1, if_neg h2, if_neg h3]
      split <;> rfl

/-- Witness for C9 (amended): a scatter-typed chart with well-formed data
yields no image. -/
theorem chart_render_validation_witness :
    generate_chart_from_json
        ⟨some "scatter", some ⟨some ["x"], some [⟨some "A", [1]⟩]⟩⟩ =
      none :=
  chart_render_validation.2.2.2.2.2
    ⟨some "scatter", some ⟨some ["x"], some [⟨some "A", [1]⟩]⟩⟩
    (by decide) (by decide) (by decide)

/-! ## Message dispatcher (bot_handlers.py, handle_message)

One run of handle_message is embedded as the ordered list of collaborator
calls and replies it performs.  The external inputs (registry lookup
outcome, classifier output, append outcome, scan outcome, report pair,
chart generation outcome) are passed in explicitly; the Telegram transport
is taken as reliable (reply calls deliver without raising), matching its
exclusion as an external collaborator. -/

/-- Outcome of append_expense_to_sheet as observed by handle_message: a
successful append, a False return (the monthly-sheet creation failed), a
raised HttpError carrying a status, or any other raised exception. -/
inductive AppendOut where
  | ok
  | failedFalse
  | httpErr (status : Nat)
  | exn
deriving DecidableEq

/-- One externally visible step of a handle_message run: a collaborator
call, a text reply, or a photo reply.  A text reply carries a short tag
standing for which of the source's messages is sent (the exact wording can
further vary with configuration, such as the service account email, but
each tag is a single reply_text call). -/
inductive Effect where
  | callLookup
  | callClassifier
  | callAppend
  | callScan
  | callReport
  | callRenderChart
  | sendText (tag : String)
  | sendPhoto
deriving DecidableEq

/-- Embeds handle_message: missing configuration returns silently; the
registry is consulted, a raised lookup produces one error text and an
absent user ends the run silently; for a registered user the classifier
runs, a falsy result (None or empty dict) is silent; a transaction with a
non-null amount and truthy category appends and reports the outcome in one
text (success, False return, 403, 404, other HttpError, or unexpected
error), a transaction missing them is silent; an analysis with a truthy
query first sends the acknowledgment text, then scans (a raised scan gives
one error text, an empty history one text), then generates the report (a
falsy summary gives one error text, otherwise the summary text), then for
a truthy chart spec renders the chart and sends the photo when a buffer
was produced; every other request_type is silent. -/
def handle_message (configOk : Bool) (lookup : Except Unit (Option String))
    (analysis : Option JDict) (appendResult : AppendOut)
    (scanRows : Except Unit (List ExpenseRecord))
    (reportSummary reportChart : Option String) (chartOk : Bool) :
    List Effect :=
  if !configOk then []
  else
    Effect.callLookup ::
    match lookup with
    | Except.error _ => [Effect.sendText "registration-check-error"]
    | Except.ok none => []
    | Except.ok (some _) =>
      Effect.callClassifier ::
      match analysis with
      | none => []
      | some d =>
        if d.isEmpty then []
        else if dictGet d "request_type" = JVal.jstr "transaction" then
          if dictGet d "amount" ≠ JVal.jnull ∧
              truthy (dictGet d "category") = true then
            Effect.callAppend ::
            match appendResult with
            | AppendOut.ok => [Effect.sendText "append-logged"]
            | AppendOut.failedFalse => [Effect.sendText "append-failed"]
            | AppendOut.httpErr st =>
              if st = 403 then [Effect.sendText "append-permission-denied"]
              else if st = 404 then [Effect.sendText "append-sheet-not-found"]
              else [Effect.sendText "append-api-error"]
            | AppendOut.exn => [Effect.sendText "append-unexpected-error"]
          else []
        else if dictGet d "request_type" = JVal.jstr "analysis" then
          if truthy (dictGet d "analysis_query") = false then []
          else
            Effect.sendText "analysis-ack" ::
            Effect.callScan ::
            match scanRows with
            | Except.error _ => [Effect.sendText "scan-error"]
            | Except.ok rows =>
              if rows.isEmpty then [Effect.sendText "no-transactions"]
              else
                Effect.callReport ::
                match reportSummary with
                | none => [Effect.sendText "analysis-error"]
                | some summary =>
                  if summary = "" then [Effect.sendText "analysis-error"]
                  else
                    Effect.sendText "analysis-summary" ::
                    match reportChart with
                    | none => []
                    | some cj =>
                      if cj = "" then []
                      else
                        Effect.callRenderChart ::
                        (if chartOk then [Effect.sendPhoto] else [])
        else []

/-- Number of text replies in a run. -/
def numTexts (l : List Effect) : Nat :=
  l.countP (fun e => match e with | Effect.sendText _ => true | _ => false)

/-- Number of photo replies in a run. -/
def numPhotos (l : List Effect) : Nat :=
  l.countP (fun e => match e with | Effect.sendPhoto => true | _ => false)

/-- C4: when the registry lookup reports the user absent, the handler run
consists of the lookup alone: no classifier call, no store access, no text
and no photo — silent termination, whatever the other collaborators would
have answered. -/
theorem handle_message_unregistered_silent
    (analysis : Option JDict) (appendResult : AppendOut)
    (scanRows : Except Unit (List ExpenseRecord))
    (reportSummary reportChart : Option String) (chartOk : Bool) :
    handle_message true (Except.ok none) analysis appendResult scanRows
      reportSummary reportChart chartOk = [Effect.callLookup] := rfl

/-- Counterexample to C5: on the successful Reporting path with a chart
the handler sends two text replies — the immediate acknowledgment and the
summary — besides the photo, not exactly one text reply. -/
theorem handle_message_two_texts_counterexample :
    numTexts (handle_message true (Except.ok (some "SHEET"))
      (some [("request_type", JVal.jstr "analysis"),
             ("is_income", JVal.jbool false),
             ("is_expense", JVal.jbool false),
             ("amount", JVal.jnull), ("category", JVal.jnull),
             ("description", JVal.jnull),
             ("analysis_query", JVal.jstr "monthly report")])
      AppendOut.ok
      (Except.ok [{ date := some "2025-01-05", amount := some 50000,
                    category := some "Ăn uống & Đồ uống",
                    description := some "", ttype := some "Chi" }])
      (some "summary") (some "chart") true) = 2 ∧
    numPhotos (handle_message true (Except.ok (some "SHEET"))
      (some [("request_type", JVal.jstr "analysis"),
             ("is_income", JVal.jbool false),
             ("is_expense", JVal.jbool false),
             ("amount", JVal.jnull), ("category", JVal.jnull),
             ("description", JVal.jnull),
             ("analysis_query", JVal.jstr "monthly report")])
      AppendOut.ok
      (Except.ok [{ date := some "2025-01-05", amount := some 50000,
                    category := some "Ăn uống & Đồ uống",
                    description := some "", ttype := some "Chi" }])
      (some "summary") (some "chart") true) = 1 :=
  ⟨rfl, rfl⟩

/-- C5 (amended): for a registered user, the Appending branch sends exactly
one text reply and no photo whatever the append outcome; the Reporting
branch (analysis with a truthy query) sends exactly two text replies — the
acknowledgment and then exactly one result or error message — and at most
one photo; and every Ignored branch (classifier failure, empty classifier
result, transaction without amount or truthy category, analysis without a
query, other or unknown request types) sends no reply at all. -/
theorem handle_message_reply_counts (sid : String)
    (analysis : Option JDict) (appendResult : AppendOut)
    (scanRows : Except Unit (List ExpenseRecord))
    (reportSummary reportChart : Option String) (chartOk : Bool)
    (effs : List Effect)
    (heffs : effs = handle_message true (Except.ok (some sid)) analysis
      appendResult scanRows reportSummary reportChart chartOk) :
    (analysis = none → numTexts effs = 0 ∧ numPhotos effs = 0) ∧
    (∀ d, analysis = some d → ¬ d.isEmpty →
      (dictGet d "request_type" = JVal.jstr "transaction" →
        ((dictGet d "amount" ≠ JVal.jnull ∧
            truthy (dictGet d "category") = true) →
          numTexts effs = 1 ∧ numPhotos effs = 0) ∧
        (¬ (dictGet d "amount" ≠ JVal.jnull ∧
            truthy (dictGet d "category") = true) →
          numTexts effs = 0 ∧ numPhotos effs = 0)) ∧
      (dictGet d "request_type" = JVal.jstr "analysis" →
        (truthy (dictGet d "analysis_query") = true →
          numTexts effs = 2 ∧ numPhotos effs ≤ 1) ∧
        (truthy (dictGet d "analysis_query") = false →
          numTexts effs = 0 ∧ numPhotos effs = 0)) ∧
      (dictGet d "request_type" ≠ JVal.jstr "transaction" →
        dictGet d "request_type" ≠ JVal.jstr "analysis" →
        numTexts effs = 0 ∧ numPhotos effs = 0)) := by
  subst heffs
  constructor
  · intro h
    subst h
    exact ⟨rfl, rfl⟩
  · intro d hd hne
    subst hd
    refine ⟨?_, ?_, ?_⟩
    · intro hrt
      constructor
      · intro hcond
        cases appendResult <;>
          simp [handle_message, hne, hrt, hcond, numTexts, numPhotos,
            List.countP_cons] <;>
          split_ifs <;> simp [List.countP_cons]
      · intro hcond
        simp [handle_message, hne, hrt, hcond, numTexts, numPhotos,
          List.countP_cons]
    · intro hrt
      have hnt : dictGet d "request_type" ≠ JVal.jstr "transaction" := by
        rw [hrt]
        decide
      constructor
      · intro hq
        rcases scanRows with e | rows
        · simp [handle_message, hne, hnt, hrt, hq, numTexts, numPhotos,
            List.countP_cons]
        · by_cases hrows : rows.isEmpty
          · simp [handle_message, hne, hnt, hrt, hq, hrows, numTexts,
              numPhotos, List.countP_cons]
          · rcases reportSummary with _ | summary
            · simp [handle_message, hne, hnt, hrt, hq, hrows, numTexts,
                numPhotos, List.countP_cons]
            · by_cases hsum : summary = ""
              · simp [handle_message, hne, hnt, hrt, hq, hrows, hsum,
                  numTexts, numPhotos, List.countP_cons]
              · rcases reportChart with _ | cj
                · simp [handle_message, hne, hnt, hrt, hq, hrows, hsum,
                    numTexts, numPhotos, List.countP_cons]
                · by_cases hcj : cj = ""
                  · simp [handle_message, hne, hnt, hrt, hq, hrows, hsum,
                      hcj, numTexts, numPhotos, List.countP_cons]
                  · cases chartOk <;>
                      simp [handle_message, hne, hnt, hrt, hq, hrows, hsum,
                        hcj, numTexts, numPhotos, List.countP_cons]
      · intro hq
        simp [handle_message, hne, hnt, hrt, hq, numTexts, numPhotos,
          List.countP_cons]
    · intro h1 h2
      simp [handle_message, hne, h1, h2, numTexts, numPhotos,
        List.countP_cons]

/-- Witness for C5 (amended): a registered user logging a transaction with
amount and category receives exactly one text reply and no photo. -/
theorem handle_message_reply_counts_witness :
    numTexts (handle_message true (Except.ok (some "S"))
      (some [("request_type", JVal.jstr "transaction"),
             ("is_income", JVal.jbool false), ("is_expense", JVal.jbool true),
             ("amount", JVal.jnum 50000), ("category", JVal.jstr "Khác"),
             ("description", JVal.jstr "pho"),
             ("analysis_query", JVal.jnull)])
      AppendOut.ok (Except.ok []) none none false) = 1 ∧
    numPhotos (handle_message true (Except.ok (some "S"))
      (some [("request_type", JVal.jstr "transaction"),
             ("is_income", JVal.jbool false), ("is_expense", JVal.jbool true),
             ("amount", JVal.jnum 50000), ("category", JVal.jstr "Khác"),
             ("description", JVal.jstr "pho"),
             ("analysis_query", JVal.jnull)])
      AppendOut.ok (Except.ok []) none none false) = 0 := by
  exact (((handle_message_reply_counts "S"
      (some [("request_type", JVal.jstr "transaction"),
             ("is_income", JVal.jbool false), ("is_expense", JVal.jbool true),
             ("amount", JVal.jnum 50000), ("category", JVal.jstr "Khác"),
             ("description", JVal.jstr "pho"),
             ("analysis_query", JVal.jnull)])
      AppendOut.ok (Except.ok []) none none false _ rfl).2
      [("request_type", JVal.jstr "transaction"),
       ("is_income", JVal.jbool false), ("is_expense", JVal.jbool true),
       ("amount", JVal.jnum 50000), ("category", JVal.jstr "Khác"),
       ("description", JVal.jstr "pho"),
       ("analysis_query", JVal.jnull)] rfl (by decide)).1
      (by decide)).1 (by decide)
